import Mathlib

/-!
Shallow embedding of the adaptive HLS encode-decision engine in
`src/pys/jigo.py` (class `HLSConverter`), covering:

* `_validate_hls_segments` / segment-duration statistics (lines 979-1026),
* `_calculate_scale` (lines 842-857),
* `_is_h264_compatible` (lines 359-385),
* the video-stream part of `probe_file` (lines 691-702),
* the copy-then-validate-then-fallback path of
  `convert_video_quality_variant` / `_try_stream_copy` (lines 1028-1095,
  1316-1357),
* the sequential job loops and master-playlist assembly of `convert`,
  `convert_all_audio_tracks` and `create_master_playlist`
  (lines 1397-1418, 1453-1489, 1576-1647).

Modelling conventions: Python floats are embedded as exact rationals `ℚ`
(`int(x)` on a non-negative value is floor, hence `Nat` division);
external backend invocations (ffmpeg / ffprobe subprocesses) are
parameters describing their observable outcome (exit code, produced
playlist, produced files); Python dict `.get(key, default)` on possibly
absent keys is `Option.getD`.  The source returns human-readable reason
strings and callers branch only on the boolean, so reasons are embedded
as an enumeration of which check fired rather than as formatted strings.
-/

/-! ### Segment Validator (`_validate_hls_segments`, jigo.py 979-1026) -/

/-- Which check of `_validate_hls_segments` fired.  The source attaches a
human-readable string for each case; callers branch only on the boolean. -/
inductive ValidationReason where
  | ok
  | m3u8Missing
  | noSegments
  | tooFew
  | tooShort
  | tooLong
  | inconsistent
  | keyframe
deriving DecidableEq

/-- Observable state of one tier's produced output consumed by
`_validate_hls_segments`: whether the playlist file exists, the parsed
`#EXTINF` durations, and the outcome of the external keyframe sampling
(`_validate_keyframes`, an ffprobe subprocess, embedded as a boolean
parameter). -/
structure TierOutput where
  m3u8Exists : Bool
  durations : List ℚ
  keyframesOk : Bool
deriving DecidableEq

/-- `min(durations)` on a non-empty list (jigo.py line 1003). -/
def listMin (l : List ℚ) : ℚ :=
  match l with
  | [] => 0
  | d :: ds => ds.foldl min d

/-- `max(durations)` on a non-empty list (jigo.py line 1004). -/
def listMax (l : List ℚ) : ℚ :=
  match l with
  | [] => 0
  | d :: ds => ds.foldl max d

/-- Population variance of the durations (jigo.py lines 1002, 1012):
`sum((d - avg) ** 2 for d in durations) / len(durations)`.  The source
compares `variance ** 0.5 > 2.0`; since both sides are non-negative this
is equivalent to `variance > 4.0`, which is how the standard-deviation
check is embedded below (see `sqrt_gt_two_iff`). -/
def popVariance (l : List ℚ) : ℚ :=
  let n : ℚ := l.length
  let avg := l.sum / n
  (l.map (fun d => (d - avg) * (d - avg))).sum / n

/-- `_validate_hls_segments` (jigo.py 979-1026): the chain of early
returns, in source order. -/
def validateHlsSegments (t : TierOutput) : Bool × ValidationReason :=
  if !t.m3u8Exists then (false, .m3u8Missing)
  else if t.durations.isEmpty then (false, .noSegments)
  else if t.durations.length < 2 then (false, .tooFew)
  else if listMin t.durations < 4 then (false, .tooShort)
  else if listMax t.durations > 8 then (false, .tooLong)
  else if popVariance t.durations > 4 then (false, .inconsistent)
  else if !t.keyframesOk then (false, .keyframe)
  else (true, .ok)

/-! ### Scale computation (`_calculate_scale`, jigo.py 842-857) -/

/-- The width/height before even-rounding (jigo.py 847-852): clamp to the
source when the target height is not below the source height, otherwise
keep the aspect ratio, truncating the width
(`int(target_height * source_width / source_height)`). -/
def rawScale (sourceWidth sourceHeight targetHeight : ℕ) : ℕ × ℕ :=
  if targetHeight ≥ sourceHeight then (sourceWidth, sourceHeight)
  else (targetHeight * sourceWidth / sourceHeight, targetHeight)

/-- Round an odd dimension down by one (jigo.py 854-855). -/
def evenFloor (n : ℕ) : ℕ :=
  if n % 2 = 0 then n else n - 1

/-- `_calculate_scale` (jigo.py 842-857), returning the final
(width, height) pair. -/
def calculateScale (sourceWidth sourceHeight targetHeight : ℕ) : ℕ × ℕ :=
  let r := rawScale sourceWidth sourceHeight targetHeight
  (evenFloor r.1, evenFloor r.2)

/-! ### Compatibility classifier (`_is_h264_compatible`, jigo.py 359-385) -/

/-- The video-stream record built by `probe_file` and consumed by
`_is_h264_compatible`.  Fields are `Option`s: the classifier reads them
with `.get(key, default)`, so an absent key is `none`. -/
structure VideoInfo where
  codec : Option String
  profile : Option String
  level : Option Int
  pixFmt : Option String
deriving DecidableEq

/-- `h264_codecs` (jigo.py line 368). -/
def h264Codecs : List String := ["h264", "avc", "avc1"]

/-- `incompatible_profiles` (jigo.py line 374). -/
def incompatibleProfiles : List String :=
  ["high 10", "high 4:2:2", "high 4:4:4", "high 10 intra"]

/-- The two accepted pixel formats (jigo.py line 382). -/
def acceptedPixelFormats : List String := ["yuv420p", "yuvj420p"]

/-- Python's `str.lower()`, character-wise (all strings the classifier
compares are ASCII, where `Char.toLower` agrees with Python). -/
def pyLower (s : String) : String :=
  String.mk (s.data.map Char.toLower)

/-- Python's `str.startswith(p)`. -/
def strStartsWith (p s : String) : Bool :=
  p.data.isPrefixOf s.data

/-- Python's `str.endswith(p)`. -/
def strEndsWith (p s : String) : Bool :=
  p.data.reverse.isPrefixOf s.data.reverse

/-- Python's substring test `needle in hay` on character lists. -/
def listContainsSub (needle hay : List Char) : Bool :=
  match hay with
  | [] => needle.isEmpty
  | _ :: t => needle.isPrefixOf hay || listContainsSub needle t

/-- Python's substring test `needle in hay` on strings. -/
def strContainsSub (needle hay : String) : Bool :=
  listContainsSub needle.data hay.data

/-- `_is_h264_compatible` (jigo.py 359-385).  `none` for the whole record
embeds `if not self.video_info: return False`; field reads mirror the
source's `.get` defaults (`''` for codec/profile/pix_fmt, `0` for level). -/
def isH264Compatible (vi : Option VideoInfo) : Bool :=
  match vi with
  | none => false
  | some v =>
    let codec := pyLower (v.codec.getD "")
    let profile := pyLower (v.profile.getD "")
    let level := v.level.getD 0
    if !(h264Codecs.any (fun c => strStartsWith c codec)) then false
    else if incompatibleProfiles.any (fun p => strContainsSub p profile) then false
    else if level > 51 then false
    else
      let pixFmt := v.pixFmt.getD ""
      if !(acceptedPixelFormats.contains pixFmt) then false
      else true

/-! ### Probe (`probe_file`, video branch, jigo.py 691-702) -/

/-- The raw ffprobe stream dictionary's classifier-relevant fields; an
absent dictionary key is `none`. -/
structure RawVideoStream where
  codecName : Option String
  profile : Option String
  level : Option Int
  pixFmt : Option String
deriving DecidableEq

/-- The `self.video_info` record built from the first video stream
(jigo.py 691-702): `'codec': stream.get('codec_name')` keeps the raw
optional value, while `'profile'`, `'level'` and `'pix_fmt'` are filled
with the defaults `''`, `0` and `'yuv420p'`. -/
def probeVideoInfo (s : RawVideoStream) : VideoInfo :=
  { codec := s.codecName
  , profile := some (s.profile.getD "")
  , level := some (s.level.getD 0)
  , pixFmt := some (s.pixFmt.getD "yuv420p") }

/-! ### Copy-then-validate-then-fallback path
(`_try_stream_copy` jigo.py 1028-1095, `convert_video_quality_variant`
jigo.py 1316-1357) -/

/-- The externally observable steps of one video-tier conversion: the
backend invocations and the cleanup of a failed copy attempt. -/
inductive Event where
  | copyAttempt
  | validate
  | cleanup
  | fallbackEncode
  | normalEncode
deriving DecidableEq

/-- Outcomes of the external backend invocations that one video-tier
conversion may perform, plus the output-directory contents after the copy
attempt: `exitCode` is the copy-attempt ffmpeg return code
(jigo.py 1063-1065), `output` is what the copy attempt left for
`_validate_hls_segments` to inspect, `fallbackOk` / `normalOk` are the
exit statuses of `_visually_lossless_encode` and `_normal_encode`
(each interpreted by exit code alone), and `dirFiles` are the file names
in the output directory after the copy attempt. -/
structure CopyBackend where
  exitCode : Int
  output : TierOutput
  fallbackOk : Bool
  normalOk : Bool
  dirFiles : List String
deriving DecidableEq

/-- `_try_stream_copy` (jigo.py 1028-1095): on non-zero backend exit it
returns failure at once — the source prints one of three diagnostics
(non-monotonous DTS / keyframe / generic) but behaves identically — and
only on zero exit does it run `_validate_hls_segments` and return that
verdict.  The trace records which steps ran. -/
def tryStreamCopy (b : CopyBackend) : List Event × Bool :=
  if b.exitCode ≠ 0 then ([.copyAttempt], false)
  else ([.copyAttempt, .validate], (validateHlsSegments b.output).1)

/-- The cleanup of a failed copy attempt (jigo.py 1341-1345): unlink every
file matching the glob `"{output_name}_*.ts"` and the playlist
`"{output_name}.m3u8"` if it exists. -/
def cleanupFailedCopy (outputName : String) (files : List String) : List String :=
  (files.filter
      (fun f => !(strStartsWith (outputName ++ "_") f && strEndsWith ".ts" f))).filter
    (fun f => f ≠ outputName ++ ".m3u8")

/-- `convert_video_quality_variant` (jigo.py 1316-1357), non-dry-run:
for the `high` tier with `can_copy_video` set it tries the stream copy;
on success it returns immediately, otherwise it deletes the partial
segments and playlist and runs the visually lossless fallback encode,
whose exit status becomes the job result.  All other cases run the single
normal encode.  Returns (event trace, directory contents after any
cleanup, job result). -/
def convertVideoQualityVariant (profileName : String) (canCopyVideo : Bool)
    (b : CopyBackend) : List Event × List String × Bool :=
  let outputName := "video_" ++ profileName
  let useCopy := profileName == "high" && canCopyVideo
  if useCopy then
    let copyRes := tryStreamCopy b
    if copyRes.2 then (copyRes.1, b.dirFiles, true)
    else
      (copyRes.1 ++ [.cleanup, .fallbackEncode],
       cleanupFailedCopy outputName b.dirFiles, b.fallbackOk)
  else ([.normalEncode], b.dirFiles, b.normalOk)

/-! ### Scheduler and manifest
(`convert` jigo.py 1576-1647, `convert_all_audio_tracks` jigo.py
1397-1418, `create_master_playlist` jigo.py 1453-1489) -/

/-- The fixed tier iteration order of `create_master_playlist`
(jigo.py line 1454): `for profile_name in ['high', 'medium', 'low']`. -/
def tierPriorityList : List String := ["high", "medium", "low"]

/-- The ordered video variant entries of the master playlist
(jigo.py 1453-1489): iterate the fixed priority list, skip tiers not in
`enabled_qualities`, and emit an entry only when the tier's playlist file
`video_<tier>.m3u8` exists on disk.  `playlistOnDisk` is the external
file-existence check. -/
def masterVideoVariants (enabledQualities : List String)
    (playlistOnDisk : String → Bool) : List String :=
  (tierPriorityList.filter (fun name => enabledQualities.contains name)).filter
    (fun name => playlistOnDisk ("video_" ++ name ++ ".m3u8"))

/-- The shared loop shape of `convert`'s sequential video phase
(jigo.py 1595-1597) and `convert_all_audio_tracks` (jigo.py 1411-1417):
attempt every job in order, and on a failure clear the success flag and
keep going.  Returns (jobs attempted in order, aggregate flag). -/
def runJobs {α : Type} (jobs : List α) (jobResult : α → Bool) :
    List α × Bool :=
  jobs.foldl
    (fun acc j => (acc.1 ++ [j], if jobResult j then acc.2 else false))
    ([], true)

/-- The audio job list of `convert_all_audio_tracks` (jigo.py 1412-1415):
for each audio track index, one job per enabled quality, track-major. -/
def audioJobList (numTracks : ℕ) (enabledQualities : List String) :
    List (ℕ × String) :=
  (List.range numTracks).flatMap
    (fun i => enabledQualities.map (fun q => (i, q)))

/-- Result of the whole `convert` pipeline relevant to scheduling and
manifest assembly. -/
structure ConvertOutcome where
  videoJobsAttempted : List String
  audioJobsAttempted : List (ℕ × String)
  manifestVariants : List String
  success : Bool
deriving DecidableEq

/-- The sequential path of `convert` (jigo.py 1576-1647): run every video
job, then every audio job (failures clear a flag but never stop a loop),
then build the master playlist from what exists on disk regardless of the
flags, and return `video_success and audio_success`. -/
def convertPipeline (enabledQualities : List String) (numTracks : ℕ)
    (videoResult : String → Bool) (audioResult : ℕ → String → Bool)
    (playlistOnDisk : String → Bool) : ConvertOutcome :=
  let v := runJobs enabledQualities videoResult
  let a := runJobs (audioJobList numTracks enabledQualities)
    (fun j => audioResult j.1 j.2)
  { videoJobsAttempted := v.1
  , audioJobsAttempted := a.1
  , manifestVariants := masterVideoVariants enabledQualities playlistOnDisk
  , success := v.2 && a.2 }

/-! ### Helper lemmas -/

/-- The source tests `variance ** 0.5 > 2.0`; over the reals this is
equivalent to `variance > 4`. -/
theorem sqrt_cast_gt_two_iff (v : ℚ) : 2 < Real.sqrt (v : ℝ) ↔ 4 < v := by
  rw [Real.lt_sqrt (by norm_num : (0:ℝ) ≤ 2)]
  constructor
  · intro hx
    exact_mod_cast (by norm_num at hx; exact hx : (4:ℝ) < (v:ℝ))
  · intro hx
    have : (4:ℝ) < (v:ℝ) := by exact_mod_cast hx
    norm_num
    exact this

theorem evenFloor_dvd (n : ℕ) : 2 ∣ evenFloor n := by
  unfold evenFloor
  split <;> omega

theorem evenFloor_le (n : ℕ) : evenFloor n ≤ n := by
  unfold evenFloor
  split <;> omega

theorem evenFloor_eq_or (n : ℕ) : evenFloor n = n ∨ evenFloor n + 1 = n := by
  unfold evenFloor
  split <;> omega

theorem runJobs_foldl {α : Type} (res : α → Bool) (jobs : List α)
    (acc : List α × Bool) :
    jobs.foldl
        (fun acc j => (acc.1 ++ [j], if res j then acc.2 else false)) acc
      = (acc.1 ++ jobs, acc.2 && jobs.all res) := by
  induction jobs generalizing acc with
  | nil => simp
  | cons j t ih =>
    rw [List.foldl_cons, ih]
    cases hj : res j <;> cases h2 : acc.2 <;> simp [hj, h2, List.all_cons]

theorem runJobs_eq {α : Type} (jobs : List α) (res : α → Bool) :
    runJobs jobs res = (jobs, jobs.all res) := by
  unfold runJobs
  rw [runJobs_foldl]
  simp

/-! ### C5 / C6: scale invariants -/

/-- C5: for every source width/height and tier target height,
`_calculate_scale` never returns a height above the source height, both
returned dimensions are even, and each equals the aspect-ratio/clamped
dimension or that dimension rounded down by one. -/
theorem scale_no_upscale_and_even (sourceWidth sourceHeight targetHeight : ℕ) :
    (calculateScale sourceWidth sourceHeight targetHeight).2 ≤ sourceHeight
    ∧ 2 ∣ (calculateScale sourceWidth sourceHeight targetHeight).1
    ∧ 2 ∣ (calculateScale sourceWidth sourceHeight targetHeight).2
    ∧ ((calculateScale sourceWidth sourceHeight targetHeight).1
          = (rawScale sourceWidth sourceHeight targetHeight).1
        ∨ (calculateScale sourceWidth sourceHeight targetHeight).1 + 1
          = (rawScale sourceWidth sourceHeight targetHeight).1)
    ∧ ((calculateScale sourceWidth sourceHeight targetHeight).2
          = (rawScale sourceWidth sourceHeight targetHeight).2
        ∨ (calculateScale sourceWidth sourceHeight targetHeight).2 + 1
          = (rawScale sourceWidth sourceHeight targetHeight).2) := by
  refine ⟨?_, evenFloor_dvd _, evenFloor_dvd _, evenFloor_eq_or _,
    evenFloor_eq_or _⟩
  show evenFloor (rawScale sourceWidth sourceHeight targetHeight).2
    ≤ sourceHeight
  unfold rawScale
  split
  · exact evenFloor_le _
  · next h =>
    calc evenFloor (sourceWidth * targetHeight / sourceHeight, targetHeight).2
        ≤ targetHeight := evenFloor_le _
      _ ≤ sourceHeight := by omega

/-- C6 as stated is false: for target height 80 and an odd source height
75, the source dimensions are not returned verbatim — the odd height is
rounded down to 74. -/
theorem scale_clamp_counterexample :
    75 ≤ 80
    ∧ calculateScale 100 75 80 ≠ (100, 75)
    ∧ calculateScale 100 75 80 = (100, 74) := by
  refine ⟨by norm_num, ?_, ?_⟩ <;> decide

/-- C6 amended: when the source height is at most the target height, the
output is the source width and height, each rounded down by one if odd;
when both source dimensions are even it is exactly the source
dimensions. -/
theorem scale_clamp_even_rounded (sourceWidth sourceHeight targetHeight : ℕ)
    (h : sourceHeight ≤ targetHeight) :
    calculateScale sourceWidth sourceHeight targetHeight
      = (evenFloor sourceWidth, evenFloor sourceHeight)
    ∧ (2 ∣ sourceWidth → 2 ∣ sourceHeight →
        calculateScale sourceWidth sourceHeight targetHeight
          = (sourceWidth, sourceHeight)) := by
  have hr : rawScale sourceWidth sourceHeight targetHeight
      = (sourceWidth, sourceHeight) := by
    unfold rawScale
    rw [if_pos h]
  constructor
  · simp [calculateScale, hr]
  · intro hw hh
    have hw0 : sourceWidth % 2 = 0 := by omega
    have hh0 : sourceHeight % 2 = 0 := by omega
    simp [calculateScale, hr, evenFloor, hw0, hh0]

/-- C6 amendment instantiated: an even 1920x1080 source requested at
target height 1080 comes back verbatim. -/
theorem scale_clamp_even_rounded_witness :
    calculateScale 1920 1080 1080 = (1920, 1080) :=
  (scale_clamp_even_rounded 1920 1080 1080 (by norm_num)).2
    (by norm_num) (by norm_num)

/-! ### C3 / C4: segment validator -/

/-- C3: with the playlist present, validation fails for fewer than two
segment durations; with at least two, it fails exactly when the minimum
duration is below 4, the maximum is above 8, the population standard
deviation exceeds 2, or the keyframe sampling failed — any duration list
passing the three threshold checks proceeds to the keyframe check. -/
theorem validator_duration_threshold_characterization (t : TierOutput)
    (hm : t.m3u8Exists = true) :
    (t.durations.length < 2 → (validateHlsSegments t).1 = false)
    ∧ (2 ≤ t.durations.length →
        ((validateHlsSegments t).1 = false ↔
          (listMin t.durations < 4 ∨ 8 < listMax t.durations
            ∨ 2 < Real.sqrt ((popVariance t.durations : ℚ) : ℝ)
            ∨ t.keyframesOk = false))) := by
  constructor
  · intro hlt
    by_cases he : t.durations.isEmpty <;>
      simp [validateHlsSegments, hm, he, hlt]
  · intro h2
    have hne : t.durations.isEmpty = false := by
      cases hd : t.durations with
      | nil => rw [hd] at h2; simp at h2
      | cons d ds => rfl
    have hn2 : ¬ t.durations.length < 2 := by omega
    rw [sqrt_cast_gt_two_iff]
    by_cases hmin : listMin t.durations < 4 <;>
    by_cases hmax : 8 < listMax t.durations <;>
    by_cases hvar : 4 < popVariance t.durations <;>
    cases hk : t.keyframesOk <;>
      simp [validateHlsSegments, hm, hne, hn2, hmin, hmax, hvar, hk]

/-- C3 instantiated at the playlist `[6, 6, 6]` with keyframes OK. -/
theorem validator_duration_threshold_characterization_witness :
    2 ≤ ([6, 6, 6] : List ℚ).length
    ∧ ((validateHlsSegments ⟨true, [6, 6, 6], true⟩).1 = false ↔
        (listMin [6, 6, 6] < 4 ∨ 8 < listMax [6, 6, 6]
          ∨ 2 < Real.sqrt ((popVariance [6, 6, 6] : ℚ) : ℝ)
          ∨ (true : Bool) = false)) :=
  ⟨by norm_num,
   (validator_duration_threshold_characterization ⟨true, [6, 6, 6], true⟩
       rfl).2 (by norm_num)⟩

/-- C4 as stated is false on its fourth example: the duration list
`[4.1, 7.9, 4.2, 7.8]` has population variance 137/40 = 3.425, so its
standard deviation is below 2 and the duration checks pass it (the
validator accepts it outright when the keyframe sampling passes). -/
theorem validator_fourth_example_counterexample :
    (validateHlsSegments
        ⟨true, [(41:ℚ)/10, 79/10, 42/10, 78/10], true⟩).1 = true
    ∧ ¬ 2 < Real.sqrt ((popVariance [(41:ℚ)/10, 79/10, 42/10, 78/10] : ℚ) : ℝ) := by
  constructor
  · norm_num [validateHlsSegments, listMin, listMax, popVariance, min_def,
      max_def]
  · rw [sqrt_cast_gt_two_iff]
    norm_num [popVariance]

/-- C4 amended: `[6,6,6]` is valid, `[2,6,6]` fails as too short,
`[6,9]` fails as too long, but `[4.1, 7.9, 4.2, 7.8]` passes the duration
checks (stddev ≈ 1.85 ≤ 2) and is decided by the keyframe sampling
alone. -/
theorem validator_spec_examples_amended :
    validateHlsSegments ⟨true, [6, 6, 6], true⟩ = (true, .ok)
    ∧ validateHlsSegments ⟨true, [2, 6, 6], true⟩ = (false, .tooShort)
    ∧ validateHlsSegments ⟨true, [6, 9], true⟩ = (false, .tooLong)
    ∧ validateHlsSegments
        ⟨true, [(41:ℚ)/10, 79/10, 42/10, 78/10], true⟩ = (true, .ok)
    ∧ validateHlsSegments
        ⟨true, [(41:ℚ)/10, 79/10, 42/10, 78/10], false⟩ = (false, .keyframe) := by
  refine ⟨?_, ?_, ?_, ?_, ?_⟩ <;>
    norm_num [validateHlsSegments, listMin, listMax, popVariance, min_def,
      max_def]

/-! ### C7 / C10: compatibility classifier and probe defaults -/

/-- C7 as stated is false: the classifier returns true for a record whose
profile and level fields are both missing — `.get` fills them with `''`
and `0`, which pass their checks — so "any missing field defaults to not
safe" does not hold. -/
theorem classifier_missing_profile_level_counterexample :
    (VideoInfo.profile ⟨some "h264", none, none, some "yuv420p"⟩ = none)
    ∧ (VideoInfo.level ⟨some "h264", none, none, some "yuv420p"⟩ = none)
    ∧ isH264Compatible
        (some ⟨some "h264", none, none, some "yuv420p"⟩) = true := by
  refine ⟨rfl, rfl, by decide⟩

/-- C7 amended: the verdict is true exactly when the four ANDed checks
pass (codec in the H.264 family, profile not containing a disallowed
high-bit-depth/chroma variant, level at most 51, pixel format one of the
two accepted 4:2:0 values); a missing stream record or a missing codec
yields not-safe, a pixel format outside the accepted values yields false
regardless of every other field, but a missing profile or level defaults
to a passing value rather than to not-safe. -/
theorem classifier_condition_characterization (v : VideoInfo) :
    (isH264Compatible (some v) = true ↔
      (h264Codecs.any
          (fun c => strStartsWith c (pyLower (v.codec.getD ""))) = true
       ∧ incompatibleProfiles.any
           (fun p => strContainsSub p (pyLower (v.profile.getD ""))) = false
       ∧ v.level.getD 0 ≤ 51
       ∧ v.pixFmt.getD "" ∈ acceptedPixelFormats))
    ∧ isH264Compatible none = false
    ∧ (v.codec = none → isH264Compatible (some v) = false)
    ∧ (v.pixFmt.getD "" ∉ acceptedPixelFormats →
        isH264Compatible (some v) = false) := by
  have hiff : isH264Compatible (some v) = true ↔
      (h264Codecs.any
          (fun c => strStartsWith c (pyLower (v.codec.getD ""))) = true
       ∧ incompatibleProfiles.any
           (fun p => strContainsSub p (pyLower (v.profile.getD ""))) = false
       ∧ v.level.getD 0 ≤ 51
       ∧ v.pixFmt.getD "" ∈ acceptedPixelFormats) := by
    rw [show (v.pixFmt.getD "" ∈ acceptedPixelFormats) ↔
        acceptedPixelFormats.contains (v.pixFmt.getD "") = true from
      List.elem_iff.symm]
    simp only [isH264Compatible]
    cases hc : h264Codecs.any
        (fun c => strStartsWith c (pyLower (v.codec.getD ""))) <;>
    cases hp : incompatibleProfiles.any
        (fun p => strContainsSub p (pyLower (v.profile.getD ""))) <;>
    by_cases hl : v.level.getD 0 > 51 <;>
    cases hx : acceptedPixelFormats.contains (v.pixFmt.getD "") <;>
      (simp [hc, hp, hl, hx, not_lt]; try omega)
  refine ⟨hiff, rfl, ?_, ?_⟩
  · intro h
    cases hcompat : isH264Compatible (some v)
    · rfl
    · exfalso
      have hcond := (hiff.mp hcompat).1
      rw [h] at hcond
      exact absurd hcond (by decide)
  · intro h
    cases hcompat : isH264Compatible (some v)
    · rfl
    · exact absurd (hiff.mp hcompat).2.2.2 h

/-- C7 amendment instantiated: pixel format `nv12` alone forces a
not-safe verdict even with an accepted codec, profile and level. -/
theorem classifier_condition_characterization_witness :
    isH264Compatible
      (some ⟨some "h264", some "high", some 41, some "nv12"⟩) = false :=
  (classifier_condition_characterization
      ⟨some "h264", some "high", some 41, some "nv12"⟩).2.2.2 (by decide)

/-- C10: a probed video stream with no reported pixel format gets
`yuv420p` recorded, and such a source can be judged copy-safe — the
missing pixel format is not treated as not-safe. -/
theorem probe_pixfmt_default_copy_safe (s : RawVideoStream)
    (h : s.pixFmt = none) :
    (probeVideoInfo s).pixFmt = some "yuv420p"
    ∧ isH264Compatible
        (some (probeVideoInfo ⟨some "h264", none, none, none⟩)) = true := by
  refine ⟨?_, by decide⟩
  simp [probeVideoInfo, h]

/-- C10 instantiated at an `h264` stream reporting no profile, level or
pixel format. -/
theorem probe_pixfmt_default_copy_safe_witness :
    (probeVideoInfo ⟨some "h264", none, none, none⟩).pixFmt = some "yuv420p"
    ∧ isH264Compatible
        (some (probeVideoInfo ⟨some "h264", none, none, none⟩)) = true :=
  probe_pixfmt_default_copy_safe ⟨some "h264", none, none, none⟩ rfl

/-! ### C1 / C2: the copy-attempt failure path -/

/-- C1 as stated is false: a non-zero copy-attempt exit code does skip
validation, but the job does not fail immediately — the fallback
re-encode is invoked, and here it succeeds, so the job result is true. -/
theorem copy_nonzero_exit_fallback_counterexample :
    ((⟨1, ⟨false, [], false⟩, true, true, []⟩ : CopyBackend).exitCode ≠ 0)
    ∧ Event.fallbackEncode ∈
        (convertVideoQualityVariant "high" true
          ⟨1, ⟨false, [], false⟩, true, true, []⟩).1
    ∧ (convertVideoQualityVariant "high" true
          ⟨1, ⟨false, [], false⟩, true, true, []⟩).2.2 = true := by
  refine ⟨by decide, by decide, by decide⟩

/-- C1 amended: a non-zero copy-attempt exit makes `_try_stream_copy`
fail at once without invoking the validator, and the caller then runs the
cleanup and the fallback re-encode, whose exit status becomes the job
result. -/
theorem copy_nonzero_exit_skips_validation_runs_fallback (b : CopyBackend)
    (h : b.exitCode ≠ 0) :
    tryStreamCopy b = ([Event.copyAttempt], false)
    ∧ (convertVideoQualityVariant "high" true b).1
        = [Event.copyAttempt, Event.cleanup, Event.fallbackEncode]
    ∧ Event.validate ∉ (convertVideoQualityVariant "high" true b).1
    ∧ (convertVideoQualityVariant "high" true b).2.2 = b.fallbackOk := by
  have ht : tryStreamCopy b = ([Event.copyAttempt], false) := by
    unfold tryStreamCopy
    rw [if_pos h]
  have hc : convertVideoQualityVariant "high" true b
      = ([Event.copyAttempt, Event.cleanup, Event.fallbackEncode],
         cleanupFailedCopy "video_high" b.dirFiles, b.fallbackOk) := by
    simp [convertVideoQualityVariant, ht]
  refine ⟨ht, by rw [hc], by rw [hc]; simp, by rw [hc]⟩

/-- C1 amendment instantiated at exit code 1. -/
theorem copy_nonzero_exit_skips_validation_runs_fallback_witness :
    tryStreamCopy (⟨1, ⟨false, [], false⟩, true, true, []⟩ : CopyBackend)
      = ([Event.copyAttempt], false) :=
  (copy_nonzero_exit_skips_validation_runs_fallback
      ⟨1, ⟨false, [], false⟩, true, true, []⟩ (by decide)).1

/-- C2: when the copy attempt exits non-zero the validator never runs;
the partial `video_high_*.ts` segments and the `video_high.m3u8` playlist
are all deleted, and the fallback encode is invoked right after the
cleanup. -/
theorem copy_attempt_failure_cleanup_then_fallback (b : CopyBackend)
    (h : b.exitCode ≠ 0) :
    Event.validate ∉ (convertVideoQualityVariant "high" true b).1
    ∧ (convertVideoQualityVariant "high" true b).1
        = [Event.copyAttempt, Event.cleanup, Event.fallbackEncode]
    ∧ (∀ f ∈ (convertVideoQualityVariant "high" true b).2.1,
        ¬(strStartsWith "video_high_" f = true ∧ strEndsWith ".ts" f = true)
        ∧ f ≠ "video_high.m3u8") := by
  have ht : tryStreamCopy b = ([Event.copyAttempt], false) := by
    unfold tryStreamCopy
    rw [if_pos h]
  have hc : convertVideoQualityVariant "high" true b
      = ([Event.copyAttempt, Event.cleanup, Event.fallbackEncode],
         cleanupFailedCopy "video_high" b.dirFiles, b.fallbackOk) := by
    simp [convertVideoQualityVariant, ht]
  refine ⟨by rw [hc]; simp, by rw [hc], ?_⟩
  intro f hf
  rw [hc] at hf
  unfold cleanupFailedCopy at hf
  rcases List.mem_filter.mp hf with ⟨hf1, hne⟩
  rcases List.mem_filter.mp hf1 with ⟨hmem, hseg⟩
  constructor
  · intro hcon
    rcases hcon with ⟨hpre, hsuf⟩
    simp [hpre, hsuf] at hseg
  · exact of_decide_eq_true hne

/-- C2 instantiated: with exit code 3 and a directory holding two partial
artifacts and an unrelated file, the trace is copy, cleanup, fallback. -/
theorem copy_attempt_failure_cleanup_then_fallback_witness :
    (convertVideoQualityVariant "high" true
        (⟨3, ⟨false, [], false⟩, false, true,
          ["video_high_000.ts", "video_high.m3u8", "other.txt"]⟩ : CopyBackend)).1
      = [Event.copyAttempt, Event.cleanup, Event.fallbackEncode] :=
  (copy_attempt_failure_cleanup_then_fallback
      ⟨3, ⟨false, [], false⟩, false, true,
        ["video_high_000.ts", "video_high.m3u8", "other.txt"]⟩ (by decide)).2.1

/-! ### C8 / C9: manifest ordering and failure isolation -/

/-- C8: the master playlist's video variants are always a sublist of the
fixed priority order high, medium, low; the emitted list is invariant
under reordering of the requested tier set; and for requested tiers
`[low, high]` (with both playlists on disk) the emission order is high
then low. -/
theorem manifest_fixed_tier_order (enabledQualities altOrder : List String)
    (playlistOnDisk : String → Bool)
    (hperm : enabledQualities.Perm altOrder) :
    (masterVideoVariants enabledQualities playlistOnDisk).Sublist
      tierPriorityList
    ∧ masterVideoVariants enabledQualities playlistOnDisk
        = masterVideoVariants altOrder playlistOnDisk
    ∧ masterVideoVariants ["low", "high"] (fun _ => true)
        = ["high", "low"] := by
  refine ⟨(List.filter_sublist _).trans (List.filter_sublist _), ?_, rfl⟩
  unfold masterVideoVariants
  congr 1
  apply List.filter_congr
  intro name _
  exact Bool.eq_iff_iff.mpr
    (by rw [List.elem_iff, List.elem_iff]; exact hperm.mem_iff)

/-- C8 instantiated at the requested tier set `[low, high]` and its
reordering `[high, low]`. -/
theorem manifest_fixed_tier_order_witness :
    (masterVideoVariants ["low", "high"] (fun _ => true)).Sublist
      tierPriorityList
    ∧ masterVideoVariants ["low", "high"] (fun _ => true)
        = masterVideoVariants ["high", "low"] (fun _ => true)
    ∧ masterVideoVariants ["low", "high"] (fun _ => true)
        = ["high", "low"] :=
  manifest_fixed_tier_order ["low", "high"] ["high", "low"] (fun _ => true)
    (by decide)

/-- C9: every scheduled video and audio job is attempted whatever the
individual results are, the aggregate result is the conjunction of all
job results, and the master playlist — assembled unconditionally
afterwards — contains exactly the requested tiers whose playlist file
exists on disk, also when the aggregate result is failure. -/
theorem scheduler_partial_failure_isolation (enabledQualities : List String)
    (numTracks : ℕ) (videoResult : String → Bool)
    (audioResult : ℕ → String → Bool) (playlistOnDisk : String → Bool) :
    (convertPipeline enabledQualities numTracks videoResult audioResult
        playlistOnDisk).videoJobsAttempted = enabledQualities
    ∧ (convertPipeline enabledQualities numTracks videoResult audioResult
        playlistOnDisk).audioJobsAttempted
        = audioJobList numTracks enabledQualities
    ∧ (convertPipeline enabledQualities numTracks videoResult audioResult
        playlistOnDisk).success
        = (enabledQualities.all videoResult
           && (audioJobList numTracks enabledQualities).all
                (fun j => audioResult j.1 j.2))
    ∧ (∀ name,
        name ∈ (convertPipeline enabledQualities numTracks videoResult
            audioResult playlistOnDisk).manifestVariants ↔
          (name ∈ tierPriorityList ∧ name ∈ enabledQualities
           ∧ playlistOnDisk ("video_" ++ name ++ ".m3u8") = true)) := by
  simp only [convertPipeline, runJobs_eq]
  refine ⟨trivial, trivial, trivial, ?_⟩
  intro name
  simp only [masterVideoVariants, List.mem_filter, List.elem_iff, and_assoc]
